import Mathlib

/-!
Shallow embedding of the Shenandoah GC scope-tracking utilities
(`src/hotspot/src/share/vm/gc_implementation/shenandoah/shenandoahUtils.cpp`).

The file models the five RAII guards of that translation unit — GC session,
GC pause mark, GC phase, allocation trace, and worker session — as explicit
state-transition functions over a `GCState` record.  Calls to the opaque
collaborators (timer, tracer, policy, heuristics, phase-timing table,
allocation-latency tracker, logging) are recorded as an event log so that
"exactly one call" properties can be stated.  Debug-build `assert`
statements are modelled as `Except.error` outcomes: a guard operation that
trips an assertion returns an error instead of a successor state.
-/

namespace Shenandoah

/-- Modelled from the spec: the `GCCause::Cause` enumeration lives in
`gc_interface/gcCause.hpp`, which is not part of the excerpt.  The spec only
requires an enumerated trigger reason with a distinguished "none" sentinel
(`GCCause::_no_gc`); a few representative non-sentinel causes are included. -/
inductive GCCause where
  | no_gc
  | allocation_failure
  | explicit_full_gc
  | concurrent_cycle
deriving DecidableEq, Repr

/-- Modelled from the spec: thread roles.  `Thread::is_VM_thread()` and
`Thread::is_ConcurrentGC_thread()` are declared in runtime headers absent
from the excerpt; the spec describes a coordinating (VM) thread, dedicated
concurrent collector threads, parallel worker threads, and ordinary threads. -/
inductive ThreadKind where
  | vm_thread
  | concurrent_gc_thread
  | worker_thread
  | java_thread
deriving DecidableEq, Repr

namespace ShenandoahPhaseTimings

/-- Modelled from the spec: the `ShenandoahPhaseTimings::Phase` enumeration is
declared in `shenandoahPhaseTimings.hpp`, which is not part of the excerpt.
The spec requires an enumeration of phase identifiers; the nine enumerators
named by the root-work switch in the source are given distinct codes below,
together with a representative generic (non-root-work) marking phase. -/
def scan_roots : Int := 1

/-- Modelled from the spec: see `scan_roots`. -/
def update_roots : Int := 2

/-- Modelled from the spec: see `scan_roots`. -/
def init_evac : Int := 3

/-- Modelled from the spec: see `scan_roots`. -/
def final_update_refs_roots : Int := 4

/-- Modelled from the spec: see `scan_roots`. -/
def degen_gc_update_roots : Int := 5

/-- Modelled from the spec: see `scan_roots`. -/
def init_traversal_gc_work : Int := 6

/-- Modelled from the spec: see `scan_roots`. -/
def final_traversal_gc_work : Int := 7

/-- Modelled from the spec: see `scan_roots`. -/
def final_traversal_update_roots : Int := 8

/-- Modelled from the spec: see `scan_roots`. -/
def full_gc_roots : Int := 9

/-- Modelled from the spec: a generic marking phase, a valid phase outside
the root-work set (spec 8: "for any phase outside it (e.g. a generic marking
phase), it returns false"). -/
def conc_mark : Int := 10

/-- Modelled from the spec: `ShenandoahPhaseTimings::_num_phases`, the number
of enumerators; every real phase code lies strictly below it. -/
def num_phases : Int := 12

end ShenandoahPhaseTimings

/-- Modelled from the spec: `INVALID_WORKER_ID`, the thread-local worker
identity sentinel meaning "unassigned"; its declaration is in a header absent
from the excerpt.  In HotSpot it is `(uint)-1`. -/
def INVALID_WORKER_ID : Nat := 4294967295

/-- The current thread, carrying its role and its thread-local worker-identity
slot (`Thread::worker_id()` / `Thread::set_worker_id(...)`). -/
structure Thread where
  kind : ThreadKind
  worker_id : Nat
deriving DecidableEq, Repr

/-- One call to an opaque collaborator, recorded in program order.
Timestamps and durations are modelled as integers (abstract clock readings;
the C++ sources use `double` seconds from `os::elapsedTime()` and `Ticks` —
the claims under study are order and comparison properties, independent of
the numeric domain and of floating-point rounding). -/
inductive Event where
  | timer_gc_start
  | tracer_gc_start (cause : GCCause)
  | trace_heap_before
  | policy_cycle_start
  | heuristics_cycle_start
  | heuristics_cycle_end
  | tracer_gc_end
  | timer_gc_end
  | timer_phase_start (name : String)
  | timer_phase_end
  | heuristics_gc_start
  | heuristics_gc_end
  | phase_timing_start (phase : Int)
  | phase_timing_end (phase : Int)
  | alloc_latency (size : Nat) (alloc_type : Int) (duration_us : Int)
  | warn_alloc_stall (duration_us : Int) (threshold : Int)
deriving DecidableEq, Repr

/-- The mutable state the guards act on: the process-wide current-phase slot
(`ShenandoahGCPhase::_current_phase`), the heap's active GC cause, the
current thread, and the log of collaborator calls made so far. -/
structure GCState where
  current_phase : Int
  gc_cause : GCCause
  thread : Thread
  events : List Event
deriving DecidableEq, Repr

/-- `true` iff an operation completed without tripping an assertion. -/
def exceptOk {α : Type} : Except String α → Bool
  | Except.ok _ => true
  | Except.error _ => false

instance {ε α : Type} [DecidableEq ε] [DecidableEq α] : DecidableEq (Except ε α) := fun a b =>
  match a, b with
  | Except.ok x, Except.ok y =>
    if h : x = y then Decidable.isTrue (by rw [h]) else
      Decidable.isFalse (by intro hc; cases hc; exact h rfl)
  | Except.error x, Except.error y =>
    if h : x = y then Decidable.isTrue (by rw [h]) else
      Decidable.isFalse (by intro hc; cases hc; exact h rfl)
  | Except.ok _, Except.error _ => Decidable.isFalse (by intro hc; cases hc)
  | Except.error _, Except.ok _ => Decidable.isFalse (by intro hc; cases hc)

/-- The begin/end/usage recording flags passed to
`TraceMemoryManagerStats::initialize` (the aggregate itself is declared
outside the excerpt; the fields mirror the call's arguments, which the
source annotates with comments). -/
structure TraceMemoryManagerStats where
  full_gc : Bool
  cause : GCCause
  all_memory_pools_affected : Bool
  record_gc_begin_time : Bool
  record_pre_gc_usage : Bool
  record_peak_usage : Bool
  record_post_gc_usage : Bool
  record_accumulated_gc_time : Bool
  record_gc_end_time : Bool
  count_collection : Bool
deriving DecidableEq, Repr

namespace ShenandoahGCPhase

/-- `ShenandoahGCPhase::_invalid_phase`, the sentinel meaning "no phase".
Modelled from the spec: its definition (`= _num_phases`) is in
`shenandoahUtils.hpp`, outside the excerpt; the spec calls it "a
distinguished invalid value" excluded by the validity range check. -/
def invalid_phase : Int := ShenandoahPhaseTimings.num_phases

/-- `ShenandoahGCPhase::_current_phase` initializer (source line 38):
the registry starts out holding the invalid sentinel. -/
def initial_current_phase : Int := invalid_phase

/-- `ShenandoahGCPhase::is_valid_phase` (source lines 117-119):
`phase >= 0 && phase < ShenandoahPhaseTimings::_num_phases`. -/
def is_valid_phase (phase : Int) : Bool :=
  decide (0 ≤ phase) && decide (phase < ShenandoahPhaseTimings.num_phases)

/-- `ShenandoahGCPhase::current_phase` accessor: reads the registry slot. -/
def current_phase (s : GCState) : Int := s.current_phase

/-- `ShenandoahGCPhase::is_root_work_phase` (source lines 121-136): a switch
over `current_phase()` returning `true` on the nine root-work enumerators and
`false` otherwise. -/
def is_root_work_phase (s : GCState) : Bool :=
  (current_phase s == ShenandoahPhaseTimings.scan_roots) ||
  (current_phase s == ShenandoahPhaseTimings.update_roots) ||
  (current_phase s == ShenandoahPhaseTimings.init_evac) ||
  (current_phase s == ShenandoahPhaseTimings.final_update_refs_roots) ||
  (current_phase s == ShenandoahPhaseTimings.degen_gc_update_roots) ||
  (current_phase s == ShenandoahPhaseTimings.init_traversal_gc_work) ||
  (current_phase s == ShenandoahPhaseTimings.final_traversal_gc_work) ||
  (current_phase s == ShenandoahPhaseTimings.final_traversal_update_roots) ||
  (current_phase s == ShenandoahPhaseTimings.full_gc_roots)

/-- The nine enumerators of the root-work switch, as a set (list) of codes. -/
def root_work_phases : List Int :=
  [ShenandoahPhaseTimings.scan_roots,
   ShenandoahPhaseTimings.update_roots,
   ShenandoahPhaseTimings.init_evac,
   ShenandoahPhaseTimings.final_update_refs_roots,
   ShenandoahPhaseTimings.degen_gc_update_roots,
   ShenandoahPhaseTimings.init_traversal_gc_work,
   ShenandoahPhaseTimings.final_traversal_gc_work,
   ShenandoahPhaseTimings.final_traversal_update_roots,
   ShenandoahPhaseTimings.full_gc_roots]

end ShenandoahGCPhase

/-- The `ShenandoahGCPhase` guard object: the phase it was constructed with
and the registry value it saved as parent. -/
structure GCPhaseGuard where
  phase : Int
  parent_phase : Int
deriving DecidableEq, Repr

namespace ShenandoahGCPhase

/-- `ShenandoahGCPhase::ShenandoahGCPhase` (source lines 101-110): asserts
the calling thread is the VM thread or a concurrent GC thread, saves the
registry's current phase as the guard's parent, installs the new phase, and
records a phase-start into the phase-timing table. -/
def construct (phase : Int) (s : GCState) : Except String (GCPhaseGuard × GCState) :=
  if s.thread.kind = ThreadKind.vm_thread ∨ s.thread.kind = ThreadKind.concurrent_gc_thread then
    Except.ok ({ phase := phase, parent_phase := s.current_phase },
      { s with current_phase := phase,
               events := s.events ++ [Event.phase_timing_start phase] })
  else
    Except.error "Must be set by these threads"

/-- `ShenandoahGCPhase::~ShenandoahGCPhase` (source lines 112-115): records a
phase-end into the phase-timing table and restores the saved parent phase. -/
def destruct (g : GCPhaseGuard) (s : GCState) : GCState :=
  { s with events := s.events ++ [Event.phase_timing_end g.phase],
           current_phase := g.parent_phase }

end ShenandoahGCPhase

/-- A correctly nested sequence of phase-guard constructions and
destructions: `block p inner` constructs a guard for `p`, runs `inner`, and
destroys the guard; `seq` runs two nested sequences one after the other. -/
inductive PhaseProg where
  | skip
  | block (phase : Int) (inner : PhaseProg)
  | seq (a b : PhaseProg)

/-- Executes a correctly nested phase-guard program, threading the state and
propagating any assertion failure. -/
def runPhases : PhaseProg → GCState → Except String GCState
  | PhaseProg.skip, s => Except.ok s
  | PhaseProg.block p inner, s =>
    match ShenandoahGCPhase.construct p s with
    | Except.error e => Except.error e
    | Except.ok (g, s1) =>
      match runPhases inner s1 with
      | Except.error e => Except.error e
      | Except.ok s2 => Except.ok (ShenandoahGCPhase.destruct g s2)
  | PhaseProg.seq a b, s =>
    match runPhases a s with
    | Except.error e => Except.error e
    | Except.ok s1 => runPhases b s1

/-- The `ShenandoahGCSession` guard object: holds the cycle trace record
(`_trace_cycle`); the heap/timer/tracer pointers are ambient in `GCState`. -/
structure GCSessionGuard where
  trace_cycle : TraceMemoryManagerStats
deriving DecidableEq, Repr

namespace ShenandoahGCSession

/-- `ShenandoahGCSession::ShenandoahGCSession` (source lines 40-65): asserts
no phase is currently active, sets the heap's GC cause, starts the cycle
timer, reports cycle start to the tracer, triggers the before-GC heap trace,
notifies policy and heuristics of cycle start, and initializes the cycle
trace record with every recording flag enabled. -/
def construct (cause : GCCause) (s : GCState) : Except String (GCSessionGuard × GCState) :=
  if ShenandoahGCPhase.is_valid_phase (ShenandoahGCPhase.current_phase s) then
    Except.error "No current GC phase"
  else
    Except.ok
      ({ trace_cycle :=
          { full_gc := false
            cause := cause
            all_memory_pools_affected := true
            record_gc_begin_time := true
            record_pre_gc_usage := true
            record_peak_usage := true
            record_post_gc_usage := true
            record_accumulated_gc_time := true
            record_gc_end_time := true
            count_collection := true } },
       { s with gc_cause := cause,
                events := s.events ++
                  [Event.timer_gc_start,
                   Event.tracer_gc_start cause,
                   Event.trace_heap_before,
                   Event.policy_cycle_start,
                   Event.heuristics_cycle_start] })

/-- `ShenandoahGCSession::~ShenandoahGCSession` (source lines 67-75):
notifies heuristics of cycle end, reports cycle end to the tracer, stops the
cycle timer, re-asserts no phase is active, and clears the active cause back
to `GCCause::_no_gc` as its final action. -/
def destruct (_g : GCSessionGuard) (s : GCState) : Except String GCState :=
  if ShenandoahGCPhase.is_valid_phase (ShenandoahGCPhase.current_phase s) then
    Except.error "No current GC phase"
  else
    Except.ok { s with gc_cause := GCCause.no_gc,
                       events := s.events ++
                         [Event.heuristics_cycle_end, Event.tracer_gc_end,
                          Event.timer_gc_end] }

end ShenandoahGCSession

/-- The `ShenandoahGCPauseMark` guard object: holds the pause trace record
(`_trace_pause`). -/
structure GCPauseMarkGuard where
  trace_pause : TraceMemoryManagerStats
deriving DecidableEq, Repr

namespace ShenandoahGCPauseMark

/-- `ShenandoahGCPauseMark::ShenandoahGCPauseMark` (source lines 77-94):
opens a dedicated timer-phase bracket named "Shenandoah", initializes the
pause trace record with the pre/peak/post usage-snapshot flags disabled, and
invokes the heuristics pause-start hook.  The `reason_type` argument feeds
the opaque `SvcGCMarker` member and is modelled as a bare code. -/
def construct (_reason : Nat) (s : GCState) : GCPauseMarkGuard × GCState :=
  ({ trace_pause :=
      { full_gc := true
        cause := s.gc_cause
        all_memory_pools_affected := true
        record_gc_begin_time := true
        record_pre_gc_usage := false
        record_peak_usage := false
        record_post_gc_usage := false
        record_accumulated_gc_time := true
        record_gc_end_time := true
        count_collection := true } },
   { s with events := s.events ++
      [Event.timer_phase_start "Shenandoah", Event.heuristics_gc_start] })

/-- `ShenandoahGCPauseMark::~ShenandoahGCPauseMark` (source lines 96-99):
closes the timer-phase bracket and invokes the heuristics pause-end hook. -/
def destruct (_g : GCPauseMarkGuard) (s : GCState) : GCState :=
  { s with events := s.events ++ [Event.timer_phase_end, Event.heuristics_gc_end] }

end ShenandoahGCPauseMark

/-- The `ShenandoahAllocTrace` guard object: saved start timestamp, requested
size in words, and allocation-request type (`ShenandoahAllocRequest::Type`,
modelled as its integer code). -/
structure AllocTraceGuard where
  start : Int
  size : Nat
  alloc_type : Int
deriving DecidableEq, Repr

namespace ShenandoahAllocTrace

/-- `ShenandoahAllocTrace::ShenandoahAllocTrace` (source lines 138-148): if
the global `ShenandoahAllocationTrace` toggle is enabled, records the start
timestamp, size and type; otherwise zeroes all fields.  The toggle is a
command-line tunable, constant for the guard's lifetime, passed here
explicitly; `now` stands for `os::elapsedTime()` at construction. -/
def construct (trace_enabled : Bool) (words_size : Nat) (alloc_type : Int)
    (now : Int) : AllocTraceGuard :=
  if trace_enabled then
    { start := now, size := words_size, alloc_type := alloc_type }
  else
    { start := 0, size := 0, alloc_type := 0 }

/-- `ShenandoahAllocTrace::~ShenandoahAllocTrace` (source lines 150-163): if
the toggle is enabled, computes the elapsed duration in microseconds, asserts
the heap's allocation-latency tracker is non-null, forwards
`(size, type, duration)` to it, and emits a stall warning when the duration
strictly exceeds `ShenandoahAllocationStallThreshold`.  `stop` stands for
`os::elapsedTime()` at destruction and `tracker_present` for the non-null
check on `ShenandoahHeap::heap()->alloc_tracker()`. -/
def destruct (trace_enabled : Bool) (tracker_present : Bool) (threshold : Int)
    (g : AllocTraceGuard) (stop : Int) (s : GCState) : Except String GCState :=
  if trace_enabled then
    let duration_us : Int := (stop - g.start) * 1000000
    if tracker_present then
      let s1 := { s with events := s.events ++
        [Event.alloc_latency g.size g.alloc_type duration_us] }
      if duration_us > threshold then
        Except.ok { s1 with events := s1.events ++
          [Event.warn_alloc_stall duration_us threshold] }
      else
        Except.ok s1
    else
      Except.error "Must be"
  else
    Except.ok s

end ShenandoahAllocTrace

/-- The `ShenandoahWorkerSession` guard object: the worker id it assigned. -/
structure WorkerSessionGuard where
  worker_id : Nat
deriving DecidableEq, Repr

namespace ShenandoahWorkerSession

/-- `ShenandoahWorkerSession::ShenandoahWorkerSession` (source lines
165-169): asserts the calling thread's worker-identity slot holds
`INVALID_WORKER_ID`, then stores the given worker id into the slot. -/
def construct (worker_id : Nat) (s : GCState) : Except String (WorkerSessionGuard × GCState) :=
  if s.thread.worker_id = INVALID_WORKER_ID then
    Except.ok ({ worker_id := worker_id },
      { s with thread := { s.thread with worker_id := worker_id } })
  else
    Except.error "Already set"

/-- `ShenandoahWorkerSession::~ShenandoahWorkerSession` (source lines
179-185): the whole body is guarded by `#ifdef ASSERT`.  With `asserts_on`
(an ASSERT build) it checks the slot holds a valid (non-sentinel) id and
resets it to `INVALID_WORKER_ID`; in a non-ASSERT build the destructor body
is empty and the slot is left untouched. -/
def destruct (asserts_on : Bool) (s : GCState) : Except String GCState :=
  if asserts_on then
    if s.thread.worker_id ≠ INVALID_WORKER_ID then
      Except.ok { s with thread := { s.thread with worker_id := INVALID_WORKER_ID } }
    else
      Except.error "Must be set"
  else
    Except.ok s

end ShenandoahWorkerSession

/-- The `(size, type, duration)` triples forwarded to the allocation-latency
tracker, in order, extracted from an event log. -/
def allocLatencyRecords (es : List Event) : List (Nat × Int × Int) :=
  es.filterMap fun e =>
    match e with
    | Event.alloc_latency sz ty d => some (sz, ty, d)
    | _ => none

/-- The `(duration, threshold)` pairs carried by emitted allocation-stall
warnings, in order, extracted from an event log. -/
def stallWarnings (es : List Event) : List (Int × Int) :=
  es.filterMap fun e =>
    match e with
    | Event.warn_alloc_stall d t => some (d, t)
    | _ => none

/-- A quiescent state for concrete runs: registry at the invalid sentinel,
no active cause, executing on the VM thread, empty call log. -/
def quiescentVM : GCState :=
  { current_phase := ShenandoahGCPhase.invalid_phase,
    gc_cause := GCCause.no_gc,
    thread := { kind := ThreadKind.vm_thread, worker_id := INVALID_WORKER_ID },
    events := [] }

/-- A quiescent state running on an ordinary worker thread. -/
def quiescentWorker : GCState :=
  { current_phase := ShenandoahGCPhase.invalid_phase,
    gc_cause := GCCause.no_gc,
    thread := { kind := ThreadKind.worker_thread, worker_id := INVALID_WORKER_ID },
    events := [] }

/-- An arbitrary session guard value, used to exercise the destructor. -/
def sessionGuard0 : GCSessionGuard :=
  ⟨⟨false, GCCause.no_gc, false, false, false, false, false, false, false, false⟩⟩

/-- The cycle trace record the session constructor builds for a concurrent
cycle: all recording flags enabled. -/
def cycleRecordAll : GCSessionGuard :=
  ⟨⟨false, GCCause.concurrent_cycle, true, true, true, true, true, true, true, true⟩⟩

/-- The state produced by opening a session for a concurrent cycle from
`quiescentVM`. -/
def sessionOpened : GCState :=
  { quiescentVM with
      gc_cause := GCCause.concurrent_cycle,
      events := [Event.timer_gc_start, Event.tracer_gc_start GCCause.concurrent_cycle,
                 Event.trace_heap_before, Event.policy_cycle_start,
                 Event.heuristics_cycle_start] }

/-- C8: the root-work classification query is a pure function of the current
phase, returning `true` exactly when the registry's current phase is one of
the nine enumerators of the fixed root-work set, and `false` for every phase
outside that set. -/
theorem is_root_work_phase_iff_mem (s : GCState) :
    ShenandoahGCPhase.is_root_work_phase s = true ↔
      ShenandoahGCPhase.current_phase s ∈ ShenandoahGCPhase.root_work_phases := by
  simp only [ShenandoahGCPhase.is_root_work_phase, ShenandoahGCPhase.root_work_phases,
    Bool.or_eq_true, beq_iff_eq, List.mem_cons, List.mem_singleton, List.not_mem_nil,
    or_false]
  tauto

/-- C10: when no phase is active — the registry holds the invalid sentinel,
as it does initially — the root-work classification query returns `false`. -/
theorem is_root_work_phase_of_invalid (s : GCState)
    (h : s.current_phase = ShenandoahGCPhase.invalid_phase) :
    ShenandoahGCPhase.is_root_work_phase s = false := by
  simp [ShenandoahGCPhase.is_root_work_phase, ShenandoahGCPhase.current_phase, h,
    ShenandoahGCPhase.invalid_phase, ShenandoahPhaseTimings.num_phases,
    ShenandoahPhaseTimings.scan_roots, ShenandoahPhaseTimings.update_roots,
    ShenandoahPhaseTimings.init_evac, ShenandoahPhaseTimings.final_update_refs_roots,
    ShenandoahPhaseTimings.degen_gc_update_roots,
    ShenandoahPhaseTimings.init_traversal_gc_work,
    ShenandoahPhaseTimings.final_traversal_gc_work,
    ShenandoahPhaseTimings.final_traversal_update_roots,
    ShenandoahPhaseTimings.full_gc_roots]

/-- Witness for C10: the initial registry state (current phase is the
invalid sentinel) is classified as non-root-work. -/
theorem is_root_work_phase_of_invalid_witness :
    (({ current_phase := ShenandoahGCPhase.initial_current_phase,
        gc_cause := GCCause.no_gc,
        thread := { kind := ThreadKind.vm_thread, worker_id := INVALID_WORKER_ID },
        events := [] } : GCState).current_phase = ShenandoahGCPhase.invalid_phase) ∧
    ShenandoahGCPhase.is_root_work_phase
      { current_phase := ShenandoahGCPhase.initial_current_phase,
        gc_cause := GCCause.no_gc,
        thread := { kind := ThreadKind.vm_thread, worker_id := INVALID_WORKER_ID },
        events := [] } = false :=
  ⟨by decide, is_root_work_phase_of_invalid _ (by decide)⟩

/-- C1: running any correctly nested sequence of phase-guard constructions
and destructions restores the registry's current phase: after each guard's
destruction the registry holds the value it held immediately before that
guard's construction (the statement quantifies over all well-nested programs
and all start states, so it applies to every guard of the nesting). -/
theorem runPhases_restores_current_phase (prog : PhaseProg) :
    ∀ s s', runPhases prog s = Except.ok s' → s'.current_phase = s.current_phase := by
  induction prog with
  | skip =>
    intro s s' h
    simp only [runPhases] at h
    cases h
    rfl
  | block p inner ih =>
    intro s s' h
    simp only [runPhases] at h
    split at h
    · cases h
    next g s1 heq =>
      split at h
      · cases h
      next s2 hr =>
        cases h
        have hg : g.parent_phase = s.current_phase := by
          unfold ShenandoahGCPhase.construct at heq
          split at heq
          · cases heq; rfl
          · cases heq
        simp [ShenandoahGCPhase.destruct, hg]
  | seq a b iha ihb =>
    intro s s' h
    simp only [runPhases] at h
    split at h
    · cases h
    next s1 ha =>
      exact (ihb s1 s' h).trans (iha s s1 ha)

/-- Witness for C1: the nesting construct P1, construct P2, destroy P2,
destroy P1, run from the initial registry state on the VM thread, ends with
the registry back at the value held before the outer construction. -/
theorem runPhases_restores_current_phase_witness :
    runPhases (PhaseProg.block 1 (PhaseProg.block 2 PhaseProg.skip))
      { current_phase := ShenandoahGCPhase.invalid_phase,
        gc_cause := GCCause.no_gc,
        thread := { kind := ThreadKind.vm_thread, worker_id := INVALID_WORKER_ID },
        events := [] } =
      Except.ok
        { current_phase := ShenandoahGCPhase.invalid_phase,
          gc_cause := GCCause.no_gc,
          thread := { kind := ThreadKind.vm_thread, worker_id := INVALID_WORKER_ID },
          events := [Event.phase_timing_start 1, Event.phase_timing_start 2,
                     Event.phase_timing_end 2, Event.phase_timing_end 1] } ∧
    ({ current_phase := ShenandoahGCPhase.invalid_phase,
       gc_cause := GCCause.no_gc,
       thread := { kind := ThreadKind.vm_thread, worker_id := INVALID_WORKER_ID },
       events := [Event.phase_timing_start 1, Event.phase_timing_start 2,
                  Event.phase_timing_end 2, Event.phase_timing_end 1] } : GCState).current_phase =
    ({ current_phase := ShenandoahGCPhase.invalid_phase,
       gc_cause := GCCause.no_gc,
       thread := { kind := ThreadKind.vm_thread, worker_id := INVALID_WORKER_ID },
       events := [] } : GCState).current_phase :=
  ⟨by decide,
   runPhases_restores_current_phase (PhaseProg.block 1 (PhaseProg.block 2 PhaseProg.skip))
     _ _ (by decide)⟩

/-- C2: constructing a Session Guard trips its fatal assertion exactly when
the registry's current phase is a valid (non-sentinel) value, the Session
Guard destructor re-asserts the same condition, and under the precondition
that no phase is active at either boundary neither assertion fires. -/
theorem gcSession_asserts_no_active_phase (cause : GCCause) (g : GCSessionGuard)
    (s : GCState) :
    (exceptOk (ShenandoahGCSession.construct cause s) = false ↔
       ShenandoahGCPhase.is_valid_phase (ShenandoahGCPhase.current_phase s) = true) ∧
    (exceptOk (ShenandoahGCSession.destruct g s) = false ↔
       ShenandoahGCPhase.is_valid_phase (ShenandoahGCPhase.current_phase s) = true) := by
  constructor
  · unfold ShenandoahGCSession.construct
    split <;> simp_all [exceptOk]
  · unfold ShenandoahGCSession.destruct
    split <;> simp_all [exceptOk, ShenandoahGCPhase.current_phase]

/-- C6: whenever the Session Guard destructor runs to completion — on any
exit path of the bracketed work, since the destructor itself is the single
modelled teardown function — the heap's active GC cause ends up reset to the
`GCCause::_no_gc` sentinel. -/
theorem gcSession_destruct_clears_cause (g : GCSessionGuard) (s s' : GCState)
    (h : ShenandoahGCSession.destruct g s = Except.ok s') :
    s'.gc_cause = GCCause.no_gc := by
  unfold ShenandoahGCSession.destruct at h
  split at h
  · cases h
  · cases h; rfl

/-- Witness for C6: destroying a session from a quiescent state (no active
phase, cause still set to an allocation failure) succeeds and leaves the
cause at the "none" sentinel. -/
theorem gcSession_destruct_clears_cause_witness :
    ShenandoahGCSession.destruct sessionGuard0
      { quiescentVM with gc_cause := GCCause.allocation_failure } =
      Except.ok
        { quiescentVM with
            events := [Event.heuristics_cycle_end, Event.tracer_gc_end,
                       Event.timer_gc_end] } ∧
    ({ quiescentVM with
         events := [Event.heuristics_cycle_end, Event.tracer_gc_end,
                    Event.timer_gc_end] } : GCState).gc_cause = GCCause.no_gc :=
  ⟨by decide,
   gcSession_destruct_clears_cause sessionGuard0
     { quiescentVM with gc_cause := GCCause.allocation_failure }
     { quiescentVM with
         events := [Event.heuristics_cycle_end, Event.tracer_gc_end,
                    Event.timer_gc_end] } (by decide)⟩

/-- C9: a successfully constructed Session Guard carries a Cycle Trace Record
with every recording field enabled (begin time, pre-GC usage, peak usage,
post-GC usage, accumulated GC time, end time, collection count), while the
Pause Guard's Pause Trace Record has the pre-GC, peak, and post-GC
usage-snapshot fields disabled. -/
theorem trace_record_usage_flags (cause : GCCause) (s : GCState)
    (g : GCSessionGuard) (s' : GCState) (reason : Nat) (t : GCState)
    (h : ShenandoahGCSession.construct cause s = Except.ok (g, s')) :
    (g.trace_cycle.record_gc_begin_time = true ∧
     g.trace_cycle.record_pre_gc_usage = true ∧
     g.trace_cycle.record_peak_usage = true ∧
     g.trace_cycle.record_post_gc_usage = true ∧
     g.trace_cycle.record_accumulated_gc_time = true ∧
     g.trace_cycle.record_gc_end_time = true ∧
     g.trace_cycle.count_collection = true) ∧
    ((ShenandoahGCPauseMark.construct reason t).1.trace_pause.record_pre_gc_usage = false ∧
     (ShenandoahGCPauseMark.construct reason t).1.trace_pause.record_peak_usage = false ∧
     (ShenandoahGCPauseMark.construct reason t).1.trace_pause.record_post_gc_usage = false) := by
  constructor
  · unfold ShenandoahGCSession.construct at h
    split at h
    · cases h
    · cases h
      exact ⟨rfl, rfl, rfl, rfl, rfl, rfl, rfl⟩
  · exact ⟨rfl, rfl, rfl⟩

/-- Witness for C9: constructing a session from the quiescent state yields a
cycle record with pre-GC usage recording enabled, while a pause mark built in
the same state yields a pause record with pre-GC usage recording disabled. -/
theorem trace_record_usage_flags_witness :
    ShenandoahGCSession.construct GCCause.concurrent_cycle quiescentVM =
      Except.ok (cycleRecordAll, sessionOpened) ∧
    cycleRecordAll.trace_cycle.record_pre_gc_usage = true ∧
    (ShenandoahGCPauseMark.construct 0 quiescentVM).1.trace_pause.record_pre_gc_usage =
      false := by
  refine ⟨by decide, ?_, ?_⟩
  · exact (trace_record_usage_flags GCCause.concurrent_cycle quiescentVM
      cycleRecordAll sessionOpened 0 quiescentVM (by decide)).1.2.1
  · exact (trace_record_usage_flags GCCause.concurrent_cycle quiescentVM
      cycleRecordAll sessionOpened 0 quiescentVM (by decide)).2.1

/-- Counterexample to C3 as stated: in a non-ASSERT build the Worker Session
Guard destructor leaves the thread's worker-identity slot untouched — run on
a thread whose slot holds 5, the destructor returns the state unchanged and
the slot still holds 5, not the invalid sentinel. -/
theorem workerSession_nodebug_no_reset_cex :
    ShenandoahWorkerSession.destruct false
      { quiescentVM with thread := { kind := ThreadKind.worker_thread, worker_id := 5 } } =
      Except.ok
        { quiescentVM with thread := { kind := ThreadKind.worker_thread, worker_id := 5 } } ∧
    ({ quiescentVM with
         thread := { kind := ThreadKind.worker_thread, worker_id := 5 } } : GCState).thread.worker_id ≠
      INVALID_WORKER_ID := by
  refine ⟨rfl, ?_⟩
  decide

/-- C3 (amended): in a debug-checked (ASSERT) build the Worker Session Guard
base destructor verifies the slot holds a valid (non-sentinel) id and resets
it to the invalid sentinel; in a non-ASSERT build the destructor body is
compiled out entirely, so neither the check nor the reset happens and the
slot keeps its value. -/
theorem workerSession_destruct_by_build (s : GCState) :
    (ShenandoahWorkerSession.destruct false s = Except.ok s) ∧
    (∀ s', ShenandoahWorkerSession.destruct true s = Except.ok s' →
       s'.thread.worker_id = INVALID_WORKER_ID) ∧
    (exceptOk (ShenandoahWorkerSession.destruct true s) = true ↔
       s.thread.worker_id ≠ INVALID_WORKER_ID) := by
  refine ⟨rfl, ?_, ?_⟩
  · intro s' h
    simp only [ShenandoahWorkerSession.destruct, if_true] at h
    split at h
    · cases h; rfl
    · cases h
  · simp only [ShenandoahWorkerSession.destruct, if_true]
    split <;> simp_all [exceptOk]

/-- Witness for C3 (amended): an ASSERT-build destruction on a thread
holding worker id 7 succeeds and resets the slot to the sentinel. -/
theorem workerSession_destruct_by_build_witness :
    ShenandoahWorkerSession.destruct true
      { quiescentVM with thread := { kind := ThreadKind.worker_thread, worker_id := 7 } } =
      Except.ok
        { quiescentVM with
            thread := { kind := ThreadKind.worker_thread, worker_id := INVALID_WORKER_ID } } ∧
    ({ quiescentVM with
         thread := { kind := ThreadKind.worker_thread,
                     worker_id := INVALID_WORKER_ID } } : GCState).thread.worker_id =
      INVALID_WORKER_ID :=
  ⟨by decide,
   (workerSession_destruct_by_build
     { quiescentVM with
         thread := { kind := ThreadKind.worker_thread, worker_id := 7 } }).2.1
     { quiescentVM with
         thread := { kind := ThreadKind.worker_thread, worker_id := INVALID_WORKER_ID } }
     (by decide)⟩

/-- C7: constructing a Worker Session Guard on a thread whose
worker-identity slot does not hold the invalid sentinel trips the fatal
assertion; when the slot holds the sentinel, the assertion is unreachable
and the slot is set to the given worker id. -/
theorem workerSession_construct_requires_sentinel (s : GCState) (wid : Nat) :
    (s.thread.worker_id ≠ INVALID_WORKER_ID →
       ShenandoahWorkerSession.construct wid s = Except.error "Already set") ∧
    (s.thread.worker_id = INVALID_WORKER_ID →
       ShenandoahWorkerSession.construct wid s =
         Except.ok (⟨wid⟩, { s with thread := { s.thread with worker_id := wid } })) := by
  constructor
  · intro h
    simp [ShenandoahWorkerSession.construct, h]
  · intro h
    simp [ShenandoahWorkerSession.construct, h]

/-- Witness for C7: assigning id 4 on a thread that already holds id 3 is
rejected, while assigning id 4 on a thread holding the sentinel succeeds and
stores 4 in the slot. -/
theorem workerSession_construct_requires_sentinel_witness :
    ShenandoahWorkerSession.construct 4
      { quiescentVM with thread := { kind := ThreadKind.worker_thread, worker_id := 3 } } =
      Except.error "Already set" ∧
    ShenandoahWorkerSession.construct 4 quiescentWorker =
      Except.ok (⟨4⟩,
        { quiescentWorker with
            thread := { quiescentWorker.thread with worker_id := 4 } }) :=
  ⟨(workerSession_construct_requires_sentinel
      { quiescentVM with thread := { kind := ThreadKind.worker_thread, worker_id := 3 } }
      4).1 (by decide),
   (workerSession_construct_requires_sentinel quiescentWorker 4).2 (by decide)⟩

/-- C4: with tracing disabled at construction the Allocation Trace Guard has
all fields zeroed and its destruction changes nothing — no call reaches the
latency tracker; with tracing enabled (and the tracker present) destruction
appends exactly one `(size, type, duration-in-microseconds)` record to the
tracker call log. -/
theorem allocTrace_tracker_record_iff_enabled
    (words_size : Nat) (alloc_type : Int) (now stop : Int) (threshold : Int)
    (tracker_present : Bool) (s : GCState) :
    (ShenandoahAllocTrace.construct false words_size alloc_type now =
       { start := 0, size := 0, alloc_type := 0 }) ∧
    (ShenandoahAllocTrace.destruct false tracker_present threshold
       (ShenandoahAllocTrace.construct false words_size alloc_type now) stop s =
       Except.ok s) ∧
    (∀ s', ShenandoahAllocTrace.destruct true true threshold
        (ShenandoahAllocTrace.construct true words_size alloc_type now) stop s =
        Except.ok s' →
      allocLatencyRecords s'.events =
        allocLatencyRecords s.events ++ [(words_size, alloc_type, (stop - now) * 1000000)]) := by
  refine ⟨rfl, rfl, ?_⟩
  intro s' h
  simp only [ShenandoahAllocTrace.construct, ShenandoahAllocTrace.destruct, if_true] at h
  split at h
  · cases h
    simp [allocLatencyRecords, List.filterMap_append]
  · cases h
    simp [allocLatencyRecords, List.filterMap_append]

/-- Witness for C4: a traced allocation of 16 words with type code 2 whose
scope elapses no time (duration 0, under the threshold of 100) forwards
exactly the one record `(16, 2, 0)` to the tracker and nothing else. -/
theorem allocTrace_tracker_record_iff_enabled_witness :
    ShenandoahAllocTrace.destruct true true 100
      (ShenandoahAllocTrace.construct true 16 2 0) 0 quiescentVM =
      Except.ok
        { quiescentVM with
            events := [Event.alloc_latency 16 2 (((0 : Int) - 0) * 1000000)] } ∧
    allocLatencyRecords
      ({ quiescentVM with
           events := [Event.alloc_latency 16 2
             (((0 : Int) - 0) * 1000000)] } : GCState).events =
      allocLatencyRecords quiescentVM.events ++ [(16, 2, ((0 : Int) - 0) * 1000000)] :=
  ⟨by decide,
   (allocTrace_tracker_record_iff_enabled 16 2 0 0 100 true quiescentVM).2.2
     { quiescentVM with
         events := [Event.alloc_latency 16 2 (((0 : Int) - 0) * 1000000)] }
     (by decide)⟩

/-- C5: with tracing enabled, destruction of the Allocation Trace Guard
appends exactly one stall warning when and only when the measured duration in
microseconds strictly exceeds the configured threshold, and the warning
carries the measured duration and the threshold. -/
theorem allocTrace_stall_warning_iff_threshold
    (g : AllocTraceGuard) (stop : Int) (threshold : Int) (s s' : GCState)
    (h : ShenandoahAllocTrace.destruct true true threshold g stop s = Except.ok s') :
    stallWarnings s'.events =
      stallWarnings s.events ++
        (if ((stop - g.start) * 1000000 : Int) > threshold then
           [(((stop - g.start) * 1000000 : Int), threshold)]
         else []) := by
  simp only [ShenandoahAllocTrace.destruct, if_true] at h
  split at h
  next hgt =>
    cases h
    rw [if_pos hgt]
    simp [stallWarnings, List.filterMap_append]
  next hgt =>
    cases h
    rw [if_neg hgt]
    simp [stallWarnings, List.filterMap_append]

/-- Witness for C5: a traced scope whose measured duration (150000000
microseconds) exceeds the configured threshold of 100 microseconds emits
exactly one stall warning, carrying that duration and the threshold; the
accompanying general theorem likewise yields none when the duration does not
exceed the threshold. -/
theorem allocTrace_stall_warning_iff_threshold_witness :
    ShenandoahAllocTrace.destruct true true 100 ⟨0, 8, 1⟩ 150 quiescentVM =
      Except.ok
        { quiescentVM with
            events := [Event.alloc_latency 8 1 (((150 : Int) - 0) * 1000000),
                       Event.warn_alloc_stall (((150 : Int) - 0) * 1000000) 100] } ∧
    stallWarnings
      ({ quiescentVM with
           events := [Event.alloc_latency 8 1 (((150 : Int) - 0) * 1000000),
                      Event.warn_alloc_stall (((150 : Int) - 0) * 1000000)
                        100] } : GCState).events =
      stallWarnings quiescentVM.events ++
        (if (((150 : Int) - 0) * 1000000 : Int) > (100 : Int) then
           [((((150 : Int) - 0) * 1000000 : Int), (100 : Int))]
         else []) :=
  ⟨by decide,
   allocTrace_stall_warning_iff_threshold ⟨0, 8, 1⟩ 150 100 quiescentVM
     { quiescentVM with
         events := [Event.alloc_latency 8 1 (((150 : Int) - 0) * 1000000),
                    Event.warn_alloc_stall (((150 : Int) - 0) * 1000000) 100] }
     (by decide)⟩

end Shenandoah
